import Mathlib

/-! Shallow embedding of the IS25LP040E SPI NOR-flash driver
(`src/Core/Src/is25lp040e.c`, `src/Core/Inc/is25lp040e.h`).

The transport (STM32 HAL SPI + GPIO chip-select) and the tick source are
modelled as an injected environment `Env`:
  * `spiOk n`    — whether the n-th HAL SPI call returns `HAL_OK`;
  * `spiRx n j`  — the j-th response byte of the n-th HAL SPI call
                   (taken mod 256, since the bus carries bytes);
  * `tick n`     — the value returned by the n-th `HAL_GetTick` call
                   (taken mod 2^32, a `uint32_t` counter).
Execution state `DState` records the running SPI-call index, the tick-call
index, the chronological trace of bus events, and the current level of the
chip-select line.  Machine integers are `Nat` with explicit `% 4294967296`
(uint32) where the C arithmetic can wrap.

C `NULL` pointers: the handle parameter is modelled as a non-null `Handle`
value (the `NULL == handle` early-error branches of the C are not
representable and return `IS25LP_ERROR` without any effect); data buffers
are modelled as `Option (List Nat)` (`none` = `NULL`) for writes and as a
`bufNull : Bool` flag for reads, whose contents the driver never inspects.
-/

/-- A bus/transport event, in chronological order of occurrence. -/
inductive Event where
  | csLow : Event
  | csHigh : Event
  | spiTx : List Nat → Event
  | spiRxEv : Nat → Event
  | spiTxRx : List Nat → Event
  | delay : Nat → Event
deriving DecidableEq, Repr

/-- Driver execution state: SPI call counter, tick call counter, event trace
(chronological), and the current chip-select level (`true` = high/deasserted). -/
structure DState where
  spiIdx : Nat
  tickIdx : Nat
  trace : List Event
  cs_high : Bool
deriving DecidableEq, Repr

/-- Initial state: no calls made, empty trace, chip-select idle (high). -/
def DState.init : DState := ⟨0, 0, [], true⟩

/-- The injected environment: HAL SPI outcomes, SPI response bytes, tick values. -/
structure Env where
  spiOk : Nat → Bool
  spiRx : Nat → Nat → Nat
  tick : Nat → Nat

/-- Append one event to the trace. -/
def emit (e : Event) (st : DState) : DState := { st with trace := st.trace ++ [e] }

/-- Model of `SPI_CS_Low`: drive the chip-select GPIO low (assert). -/
def SPI_CS_Low (st : DState) : DState :=
  { emit Event.csLow st with cs_high := false }

/-- Model of `SPI_CS_High`: drive the chip-select GPIO high (deassert). -/
def SPI_CS_High (st : DState) : DState :=
  { emit Event.csHigh st with cs_high := true }

/-- Model of `HAL_SPI_Transmit`: transmit `data`; the environment decides success. -/
def HAL_SPI_Transmit (env : Env) (data : List Nat) (st : DState) : Bool × DState :=
  (env.spiOk st.spiIdx, { emit (Event.spiTx data) st with spiIdx := st.spiIdx + 1 })

/-- Model of `HAL_SPI_Receive`: receive `len` bytes; the environment decides success. -/
def HAL_SPI_Receive (env : Env) (len : Nat) (st : DState) : Bool × DState :=
  (env.spiOk st.spiIdx, { emit (Event.spiRxEv len) st with spiIdx := st.spiIdx + 1 })

/-- Model of `HAL_SPI_TransmitReceive`: full-duplex transfer of `tx`; returns the
environment-chosen response bytes (one per transmitted byte, each mod 256). -/
def HAL_SPI_TransmitReceive (env : Env) (tx : List Nat) (st : DState) :
    Bool × List Nat × DState :=
  (env.spiOk st.spiIdx,
   (List.range tx.length).map (fun j => env.spiRx st.spiIdx j % 256),
   { emit (Event.spiTxRx tx) st with spiIdx := st.spiIdx + 1 })

/-- Model of `HAL_GetTick`: the monotonic millisecond counter, a `uint32_t`. -/
def HAL_GetTick (env : Env) (st : DState) : Nat × DState :=
  (env.tick st.tickIdx % 4294967296, { st with tickIdx := st.tickIdx + 1 })

/-- Model of `HAL_Delay`: busy-sleep for `ms` milliseconds. -/
def HAL_Delay (ms : Nat) (st : DState) : DState := emit (Event.delay ms) st

/-- Commands (`is25lp040e.c` lines 23-38). -/
def CMD_WRITE_ENABLE : Nat := 0x06
def CMD_READ_STATUS_REG : Nat := 0x05
def CMD_READ_DATA : Nat := 0x03
def CMD_FAST_READ : Nat := 0x0B
def CMD_PAGE_PROGRAM : Nat := 0x02
def CMD_SECTOR_ERASE : Nat := 0x20
def CMD_BLOCK_ERASE_32K : Nat := 0x52
def CMD_BLOCK_ERASE_64K : Nat := 0xD8
def CMD_CHIP_ERASE : Nat := 0xC7
def CMD_READ_JEDEC_ID : Nat := 0x9F
def CMD_READ_DEVICE_ID : Nat := 0x90
def CMD_READ_UNIQUE_ID : Nat := 0x4B

/-- Status-register bits and timeouts (`is25lp040e.c` lines 43-56). -/
def STATUS_BUSY : Nat := 0x01
def TIMEOUT_SPI : Nat := 5
def TIMEOUT_PAGE_PROGRAM : Nat := 10
def TIMEOUT_SECTOR_ERASE : Nat := 200
def TIMEOUT_BLOCK_ERASE_32K : Nat := 500
def TIMEOUT_BLOCK_ERASE_64K : Nat := 1000
def TIMEOUT_CHIP_ERASE : Nat := 10000
def DUMMY_BYTE : Nat := 0xFF

/-- Geometry and identity constants (`is25lp040e.h` lines 25-38). -/
def IS25LP_PAGE_SIZE : Nat := 256
def IS25LP_SECTOR_SIZE : Nat := 4096
def IS25LP_BLOCK_32K_SIZE : Nat := 32768
def IS25LP_BLOCK_64K_SIZE : Nat := 65536
def IS25LP_CHIP_SIZE : Nat := 524288
def IS25LP_MANUFACTURER_ID : Nat := 0x9D
def IS25LP_DEVICE_ID : Nat := 0x13

/-- Operation outcome (`eIS25LP_Status_t` in `is25lp040e.h`). -/
inductive eIS25LP_Status_t where
  | error : eIS25LP_Status_t
  | ok : eIS25LP_Status_t
deriving DecidableEq, Repr

/-- The driver-relevant part of `sIS25LP_Handle_t`: the initialization flag
(the SPI handle and GPIO bindings are absorbed into `Env`/`DState`). -/
structure sIS25LP_Handle_t where
  initialized : Bool
deriving DecidableEq, Repr

/-- Model of `sIS25LP_DeviceInfo_t` (`is25lp040e.h` lines 80-86). -/
structure sIS25LP_DeviceInfo_t where
  manufacturer_id : Nat
  memory_type : Nat
  capacity : Nat
  unique_id : List Nat
deriving DecidableEq, Repr

/-- Model of `IS25LP_WriteEnable` (`is25lp040e.c` lines 77-86). -/
def IS25LP_WriteEnable (env : Env) (st : DState) : eIS25LP_Status_t × DState :=
  let st := SPI_CS_Low st
  let r := HAL_SPI_Transmit env [CMD_WRITE_ENABLE] st
  let st := SPI_CS_High r.2
  (if r.1 then .ok else .error, st)

/-- Model of `IS25LP_ReadStatusRegister` (`is25lp040e.c` lines 91-101): returns
`response[1]`.  The C ignores the HAL return value of this transfer. -/
def IS25LP_ReadStatusRegister (env : Env) (st : DState) : Nat × DState :=
  let st := SPI_CS_Low st
  let r := HAL_SPI_TransmitReceive env [CMD_READ_STATUS_REG, DUMMY_BYTE] st
  let st := SPI_CS_High r.2.2
  (r.2.1.getD 1 0, st)

/-- The `while` loop of `IS25LP_WaitForReady` (`is25lp040e.c` lines 110-117),
given explicit fuel.  Fuel exhaustion (first branch) is a modelling artifact:
the C loop has no iteration bound of its own; all theorems below either
exit the loop on the first status read or prove fuel sufficiency. -/
def waitLoop (env : Env) (timeout_ms tickstart : Nat) :
    Nat → DState → eIS25LP_Status_t × DState
  | 0, st => (.error, st)
  | fuel + 1, st =>
    let r := IS25LP_ReadStatusRegister env st
    if r.1 &&& STATUS_BUSY ≠ 0 then
      let t := HAL_GetTick env r.2
      if (t.1 + 4294967296 - tickstart) % 4294967296 > timeout_ms then (.error, t.2)
      else waitLoop env timeout_ms tickstart fuel (HAL_Delay 1 t.2)
    else (.ok, r.2)

/-- Model of `IS25LP_WaitForReady` (`is25lp040e.c` lines 106-120): record the start
tick, then poll the status register until the WIP bit clears or
`HAL_GetTick() - tickstart > timeout_ms` (uint32 wrapping subtraction). -/
def IS25LP_WaitForReady (env : Env) (timeout_ms : Nat) (fuel : Nat) (st : DState) :
    eIS25LP_Status_t × DState :=
  let t := HAL_GetTick env st
  waitLoop env timeout_ms t.1 fuel t.2

/-- Model of `IS25LP_ReadJedecID` (`is25lp040e.c` lines 165-189).  `none` models the
`IS25LP_ERROR` return (out-parameters unwritten); `some (m, t, c)` models
`IS25LP_OK` with `*manufacturer = response[1]`, `*memory_type = response[2]`,
`*capacity = response[3]`. -/
def IS25LP_ReadJedecID (env : Env) (st : DState) :
    Option (Nat × Nat × Nat) × DState :=
  let cmd := [CMD_READ_JEDEC_ID, DUMMY_BYTE, DUMMY_BYTE, DUMMY_BYTE]
  let st := SPI_CS_Low st
  let r := HAL_SPI_TransmitReceive env cmd st
  if !r.1 then (none, SPI_CS_High r.2.2)
  else
    let st := SPI_CS_High r.2.2
    (some (r.2.1.getD 1 0, r.2.1.getD 2 0, r.2.1.getD 3 0), st)

/-- Model of `IS25LP_Init` (`is25lp040e.c` lines 125-160): CS idle high, 10 ms delay,
JEDEC-ID read, manufacturer check (0x9D), capacity check (0x13), then set
`handle->initialized = true`.  Failure paths leave the handle untouched. -/
def IS25LP_Init (env : Env) (handle : sIS25LP_Handle_t) (st : DState) :
    eIS25LP_Status_t × sIS25LP_Handle_t × DState :=
  let st := SPI_CS_High st
  let st := HAL_Delay 10 st
  match IS25LP_ReadJedecID env st with
  | (none, st) => (.error, handle, st)
  | (some (manufacturer, _memory_type, capacity), st) =>
    if IS25LP_MANUFACTURER_ID ≠ manufacturer then (.error, handle, st)
    else if IS25LP_DEVICE_ID ≠ capacity then (.error, handle, st)
    else (.ok, { handle with initialized := true }, st)

/-- Model of `IS25LP_ReadDeviceID` (`is25lp040e.c` lines 194-217). -/
def IS25LP_ReadDeviceID (env : Env) (st : DState) : Option (Nat × Nat) × DState :=
  let cmd := [CMD_READ_DEVICE_ID, 0x00, 0x00, 0x00, DUMMY_BYTE, DUMMY_BYTE]
  let st := SPI_CS_Low st
  let r := HAL_SPI_TransmitReceive env cmd st
  if !r.1 then (none, SPI_CS_High r.2.2)
  else (some (r.2.1.getD 4 0, r.2.1.getD 5 0), SPI_CS_High r.2.2)

/-- Model of `IS25LP_ReadUniqueID` (`is25lp040e.c` lines 222-250): command byte plus
12 dummy bytes; the 8-byte unique id is `response[5..12]`
(`memcpy(unique_id, &response[5], 8)`). -/
def IS25LP_ReadUniqueID (env : Env) (st : DState) : Option (List Nat) × DState :=
  let cmd := CMD_READ_UNIQUE_ID :: List.replicate 12 DUMMY_BYTE
  let st := SPI_CS_Low st
  let r := HAL_SPI_TransmitReceive env cmd st
  if !r.1 then (none, SPI_CS_High r.2.2)
  else (some ((r.2.1.drop 5).take 8), SPI_CS_High r.2.2)

/-- Model of `IS25LP_GetDeviceInfo` (`is25lp040e.c` lines 255-280): rejects a
not-initialized handle, then reads the JEDEC id and the unique id from the
device.  `none` models `IS25LP_ERROR` (the `NULL == info` branch, not
representable here, also returns `IS25LP_ERROR` with no effect). -/
def IS25LP_GetDeviceInfo (env : Env) (handle : sIS25LP_Handle_t) (st : DState) :
    Option sIS25LP_DeviceInfo_t × DState :=
  if !handle.initialized then (none, st)
  else
    match IS25LP_ReadJedecID env st with
    | (none, st) => (none, st)
    | (some (m, t, c), st) =>
      match IS25LP_ReadUniqueID env st with
      | (none, st) => (none, st)
      | (some uid, st) => (some ⟨m, t, c, uid⟩, st)

/-- Model of `IS25LP_Read` (`is25lp040e.c` lines 285-338).  `address` and `length`
are `uint32_t` values; the range check `(address + length) > IS25LP_CHIP_SIZE`
uses wrapping uint32 addition, hence the `% 4294967296`. -/
def IS25LP_Read (env : Env) (fuel : Nat) (address : Nat) (bufNull : Bool)
    (length : Nat) (st : DState) : eIS25LP_Status_t × DState :=
  if bufNull || length == 0 then (.error, st)
  else if (address + length) % 4294967296 > IS25LP_CHIP_SIZE then (.error, st)
  else
    match IS25LP_WaitForReady env TIMEOUT_SPI fuel st with
    | (.error, st) => (.error, st)
    | (.ok, st) =>
      let cmd := [CMD_READ_DATA,
        (address >>> 16) &&& 0xFF, (address >>> 8) &&& 0xFF, address &&& 0xFF]
      let st := SPI_CS_Low st
      let r := HAL_SPI_Transmit env cmd st
      if !r.1 then (.error, SPI_CS_High r.2)
      else
        let r2 := HAL_SPI_Receive env length r.2
        if !r2.1 then (.error, SPI_CS_High r2.2)
        else (.ok, SPI_CS_High r2.2)

/-- Model of `IS25LP_FastRead` (`is25lp040e.c` lines 343-397): same as `IS25LP_Read`
with a trailing dummy byte in the command frame. -/
def IS25LP_FastRead (env : Env) (fuel : Nat) (address : Nat) (bufNull : Bool)
    (length : Nat) (st : DState) : eIS25LP_Status_t × DState :=
  if bufNull || length == 0 then (.error, st)
  else if (address + length) % 4294967296 > IS25LP_CHIP_SIZE then (.error, st)
  else
    match IS25LP_WaitForReady env TIMEOUT_SPI fuel st with
    | (.error, st) => (.error, st)
    | (.ok, st) =>
      let cmd := [CMD_FAST_READ,
        (address >>> 16) &&& 0xFF, (address >>> 8) &&& 0xFF, address &&& 0xFF,
        DUMMY_BYTE]
      let st := SPI_CS_Low st
      let r := HAL_SPI_Transmit env cmd st
      if !r.1 then (.error, SPI_CS_High r.2)
      else
        let r2 := HAL_SPI_Receive env length r.2
        if !r2.1 then (.error, SPI_CS_High r2.2)
        else (.ok, SPI_CS_High r2.2)

/-- Model of `IS25LP_WritePage` (`is25lp040e.c` lines 402-474).  `buffer` is
`Option (List Nat)` (`none` = `NULL`); `length` is the `uint16_t` byte
count and the payload transmitted is the first `length` buffer bytes. -/
def IS25LP_WritePage (env : Env) (fuel : Nat) (address : Nat)
    (buffer : Option (List Nat)) (length : Nat) (st : DState) :
    eIS25LP_Status_t × DState :=
  if buffer.isNone || length == 0 || length > IS25LP_PAGE_SIZE then (.error, st)
  else if address ≥ IS25LP_CHIP_SIZE then (.error, st)
  else
    let page_offset := address % IS25LP_PAGE_SIZE
    if page_offset + length > IS25LP_PAGE_SIZE then (.error, st)
    else
      match IS25LP_WaitForReady env TIMEOUT_PAGE_PROGRAM fuel st with
      | (.error, st) => (.error, st)
      | (.ok, st) =>
        match IS25LP_WriteEnable env st with
        | (.error, st) => (.error, st)
        | (.ok, st) =>
          let cmd := [CMD_PAGE_PROGRAM,
            (address >>> 16) &&& 0xFF, (address >>> 8) &&& 0xFF, address &&& 0xFF]
          let st := SPI_CS_Low st
          let r := HAL_SPI_Transmit env cmd st
          if !r.1 then (.error, SPI_CS_High r.2)
          else
            let r2 := HAL_SPI_Transmit env ((buffer.getD []).take length) r.2
            if !r2.1 then (.error, SPI_CS_High r2.2)
            else IS25LP_WaitForReady env TIMEOUT_PAGE_PROGRAM fuel (SPI_CS_High r2.2)

/-- The `while (bytes_written < length)` loop of `IS25LP_Write`
(`is25lp040e.c` lines 503-526), phrased on `remaining = length -
bytes_written`; the buffer pointer advance `current_buffer +=
bytes_to_write` is `List.drop`, and `current_address += bytes_to_write` is
uint32 addition.  `bound` is structural fuel: every C iteration writes
`bytes_to_write ≥ 1` bytes, so `bound := remaining` at entry makes the
exhaustion branch unreachable (the success theorems below never hit it).
`bytes_to_write ≤ 256`, so its implicit `uint32 → uint16` conversion at the
`IS25LP_WritePage` call site is value-preserving. -/
def writeLoop (env : Env) (fuel : Nat) :
    Nat → Nat → List Nat → Nat → DState → eIS25LP_Status_t × DState
  | bound, current_address, current_buffer, remaining, st =>
    if remaining == 0 then (.ok, st)
    else
      match bound with
      | 0 => (.error, st)
      | bound + 1 =>
        let page_offset := current_address % IS25LP_PAGE_SIZE
        let bytes_to_page_end := IS25LP_PAGE_SIZE - page_offset
        let bytes_to_write :=
          if remaining > bytes_to_page_end then bytes_to_page_end else remaining
        match IS25LP_WritePage env fuel current_address (some current_buffer)
            bytes_to_write st with
        | (.error, st) => (.error, st)
        | (.ok, st) =>
          writeLoop env fuel bound ((current_address + bytes_to_write) % 4294967296)
            (current_buffer.drop bytes_to_write) (remaining - bytes_to_write) st

/-- Model of `IS25LP_Write` (`is25lp040e.c` lines 479-529): validate, then split the
buffer into page-aligned chunks via `writeLoop`. -/
def IS25LP_Write (env : Env) (fuel : Nat) (address : Nat)
    (buffer : Option (List Nat)) (length : Nat) (st : DState) :
    eIS25LP_Status_t × DState :=
  if buffer.isNone || length == 0 then (.error, st)
  else if (address + length) % 4294967296 > IS25LP_CHIP_SIZE then (.error, st)
  else writeLoop env fuel length address (buffer.getD []) length st

/-- Model of `IS25LP_EraseSector` (`is25lp040e.c` lines 534-587). -/
def IS25LP_EraseSector (env : Env) (fuel : Nat) (address : Nat) (st : DState) :
    eIS25LP_Status_t × DState :=
  if address ≥ IS25LP_CHIP_SIZE then (.error, st)
  else
    let address := (address / IS25LP_SECTOR_SIZE) * IS25LP_SECTOR_SIZE
    match IS25LP_WaitForReady env TIMEOUT_SECTOR_ERASE fuel st with
    | (.error, st) => (.error, st)
    | (.ok, st) =>
      match IS25LP_WriteEnable env st with
      | (.error, st) => (.error, st)
      | (.ok, st) =>
        let cmd := [CMD_SECTOR_ERASE,
          (address >>> 16) &&& 0xFF, (address >>> 8) &&& 0xFF, address &&& 0xFF]
        let st := SPI_CS_Low st
        let r := HAL_SPI_Transmit env cmd st
        let st := SPI_CS_High r.2
        if !r.1 then (.error, st)
        else IS25LP_WaitForReady env TIMEOUT_SECTOR_ERASE fuel st

/-- Model of `IS25LP_EraseBlock32K` (`is25lp040e.c` lines 592-645). -/
def IS25LP_EraseBlock32K (env : Env) (fuel : Nat) (address : Nat) (st : DState) :
    eIS25LP_Status_t × DState :=
  if address ≥ IS25LP_CHIP_SIZE then (.error, st)
  else
    let address := (address / IS25LP_BLOCK_32K_SIZE) * IS25LP_BLOCK_32K_SIZE
    match IS25LP_WaitForReady env TIMEOUT_BLOCK_ERASE_32K fuel st with
    | (.error, st) => (.error, st)
    | (.ok, st) =>
      match IS25LP_WriteEnable env st with
      | (.error, st) => (.error, st)
      | (.ok, st) =>
        let cmd := [CMD_BLOCK_ERASE_32K,
          (address >>> 16) &&& 0xFF, (address >>> 8) &&& 0xFF, address &&& 0xFF]
        let st := SPI_CS_Low st
        let r := HAL_SPI_Transmit env cmd st
        let st := SPI_CS_High r.2
        if !r.1 then (.error, st)
        else IS25LP_WaitForReady env TIMEOUT_BLOCK_ERASE_32K fuel st

/-- Model of `IS25LP_EraseBlock64K` (`is25lp040e.c` lines 650-703). -/
def IS25LP_EraseBlock64K (env : Env) (fuel : Nat) (address : Nat) (st : DState) :
    eIS25LP_Status_t × DState :=
  if address ≥ IS25LP_CHIP_SIZE then (.error, st)
  else
    let address := (address / IS25LP_BLOCK_64K_SIZE) * IS25LP_BLOCK_64K_SIZE
    match IS25LP_WaitForReady env TIMEOUT_BLOCK_ERASE_64K fuel st with
    | (.error, st) => (.error, st)
    | (.ok, st) =>
      match IS25LP_WriteEnable env st with
      | (.error, st) => (.error, st)
      | (.ok, st) =>
        let cmd := [CMD_BLOCK_ERASE_64K,
          (address >>> 16) &&& 0xFF, (address >>> 8) &&& 0xFF, address &&& 0xFF]
        let st := SPI_CS_Low st
        let r := HAL_SPI_Transmit env cmd st
        let st := SPI_CS_High r.2
        if !r.1 then (.error, st)
        else IS25LP_WaitForReady env TIMEOUT_BLOCK_ERASE_64K fuel st

/-- Model of `IS25LP_EraseChip` (`is25lp040e.c` lines 708-746). -/
def IS25LP_EraseChip (env : Env) (fuel : Nat) (st : DState) :
    eIS25LP_Status_t × DState :=
  match IS25LP_WaitForReady env TIMEOUT_CHIP_ERASE fuel st with
  | (.error, st) => (.error, st)
  | (.ok, st) =>
    match IS25LP_WriteEnable env st with
    | (.error, st) => (.error, st)
    | (.ok, st) =>
      let st := SPI_CS_Low st
      let r := HAL_SPI_Transmit env [CMD_CHIP_ERASE] st
      let st := SPI_CS_High r.2
      if !r.1 then (.error, st)
      else IS25LP_WaitForReady env TIMEOUT_CHIP_ERASE fuel st

/-!  Spec-side definitions and distinguished environments. -/

/-- Modelled from the spec: the 24-bit address in big-endian byte order
(high, mid, low), written with integer division and remainder. -/
def be24 (a : Nat) : List Nat := [a / 65536 % 256, a / 256 % 256, a % 256]

/-- Modelled from the spec: the chunk list of a multi-page write — start
addresses `A, A+c1, A+c1+c2, ...`, each chunk length
`ci = min(remaining, pageSize - (address_i mod pageSize))`.  `bound` is
structural fuel; `specChunks` instantiates it with `L`, which suffices
because every chunk is nonempty. -/
def specChunksAux : Nat → Nat → Nat → List (Nat × Nat)
  | 0, _, _ => []
  | _ + 1, _, 0 => []
  | bound + 1, a, l + 1 =>
    let c := min (l + 1) (IS25LP_PAGE_SIZE - a % IS25LP_PAGE_SIZE)
    (a, c) :: specChunksAux bound (a + c) (l + 1 - c)

/-- Modelled from the spec: chunk decomposition of a write of `l` bytes at
address `a`. -/
def specChunks (a l : Nat) : List (Nat × Nat) := specChunksAux l a l

/-- Extract the page-program calls from a trace: each is a transmitted
4-byte frame `[CMD_PAGE_PROGRAM, hi, mid, lo]` immediately followed by the
payload transmission; the extracted pair is (decoded address, payload
length). -/
def pageProgs : List Event → List (Nat × Nat)
  | Event.spiTx (2 :: hi :: mid :: lo :: []) :: Event.spiTx payload :: rest =>
    (hi * 65536 + mid * 256 + lo, payload.length) :: pageProgs rest
  | _ :: rest => pageProgs rest
  | [] => []

/-- An environment in which every HAL SPI call succeeds and the status
register never reports busy (WIP bit clear on every read). -/
def ReadyEnv (env : Env) : Prop :=
  (∀ i, env.spiOk i = true) ∧ (∀ i, env.spiRx i 1 % 256 &&& STATUS_BUSY = 0)

/-- All-success environment: transfers succeed, every response byte is 0,
ticks advance one per call. -/
def envReady : Env := ⟨fun _ => true, fun _ _ => 0, fun n => n⟩

/-- Environment whose status register is permanently busy (every response
byte is 1, so the WIP bit never clears); transfers succeed; the tick counter
advances by one millisecond per `HAL_GetTick` call, matching the
`HAL_Delay(1)` per polling iteration. -/
def envBusy : Env := ⟨fun _ => true, fun _ _ => 1, fun n => n⟩

/-- Environment answering every transfer with the expected IS25LP040E JEDEC
identity bytes in positions 1-3 (0x9D, 0x60, 0x13) and zeros elsewhere. -/
def envJedec : Env :=
  ⟨fun _ => true,
   fun _ j => if j = 1 then 0x9D else if j = 2 then 0x60 else if j = 3 then 0x13 else 0,
   fun n => n⟩

def statusEvs : List Event :=
  [Event.csLow, Event.spiTxRx [CMD_READ_STATUS_REG, DUMMY_BYTE], Event.csHigh]

def weEvs : List Event := [Event.csLow, Event.spiTx [CMD_WRITE_ENABLE], Event.csHigh]

def readCmd (a : Nat) : List Nat :=
  [CMD_READ_DATA, (a >>> 16) &&& 0xFF, (a >>> 8) &&& 0xFF, a &&& 0xFF]

def readEvs (a l : Nat) : List Event :=
  statusEvs ++ [Event.csLow, Event.spiTx (readCmd a), Event.spiRxEv l, Event.csHigh]

def fastReadCmd (a : Nat) : List Nat :=
  [CMD_FAST_READ, (a >>> 16) &&& 0xFF, (a >>> 8) &&& 0xFF, a &&& 0xFF, DUMMY_BYTE]

def fastReadEvs (a l : Nat) : List Event :=
  statusEvs ++ [Event.csLow, Event.spiTx (fastReadCmd a), Event.spiRxEv l, Event.csHigh]

def pageCmd (a : Nat) : List Nat :=
  [CMD_PAGE_PROGRAM, (a >>> 16) &&& 0xFF, (a >>> 8) &&& 0xFF, a &&& 0xFF]

def writePageEvs (a : Nat) (payload : List Nat) : List Event :=
  statusEvs ++ weEvs ++
  [Event.csLow, Event.spiTx (pageCmd a), Event.spiTx payload, Event.csHigh] ++ statusEvs

def eraseCmd (op a : Nat) : List Nat :=
  [op, (a >>> 16) &&& 0xFF, (a >>> 8) &&& 0xFF, a &&& 0xFF]

def eraseEvs (op a : Nat) : List Event :=
  statusEvs ++ weEvs ++
  [Event.csLow, Event.spiTx (eraseCmd op a), Event.csHigh] ++ statusEvs

/-- Expected event trace of a failure-free multi-page write loop, mirroring
the chunking of `writeLoop`. -/
def writeTraceEvs : Nat → Nat → List Nat → Nat → List Event
  | bound, a, buf, remaining =>
    if remaining == 0 then []
    else
      match bound with
      | 0 => []
      | bound + 1 =>
        let bytes_to_page_end := IS25LP_PAGE_SIZE - a % IS25LP_PAGE_SIZE
        let c := if remaining > bytes_to_page_end then bytes_to_page_end else remaining
        writePageEvs a (buf.take c) ++
          writeTraceEvs bound (a + c) (buf.drop c) (remaining - c)

/-- Events of one JEDEC-ID transaction. -/
def jedecEvs : List Event :=
  [Event.csLow,
   Event.spiTxRx [CMD_READ_JEDEC_ID, DUMMY_BYTE, DUMMY_BYTE, DUMMY_BYTE],
   Event.csHigh]

/-- Events of one unique-id transaction. -/
def uniqueEvs : List Event :=
  [Event.csLow,
   Event.spiTxRx (CMD_READ_UNIQUE_ID :: List.replicate 12 DUMMY_BYTE),
   Event.csHigh]

theorem envReady_ready : ReadyEnv envReady := by
  refine ⟨fun i => rfl, fun i => ?_⟩
  simp [envReady, STATUS_BUSY]

lemma and255 (x : Nat) : x &&& 255 = x % 256 := by
  have h := Nat.and_pow_two_sub_one_eq_mod x 8
  norm_num at h
  exact h

lemma hi_eq (a : Nat) : (a >>> 16) &&& 255 = a / 65536 % 256 := by
  rw [and255, Nat.shiftRight_eq_div_pow]

lemma mid_eq (a : Nat) : (a >>> 8) &&& 255 = a / 256 % 256 := by
  rw [and255, Nat.shiftRight_eq_div_pow]

lemma waitForReady_ready (env : Env) (h : ReadyEnv env) (t fuel : Nat) (st : DState)
    (hf : fuel ≠ 0) :
    IS25LP_WaitForReady env t fuel st =
      (.ok, { st with spiIdx := st.spiIdx + 1, tickIdx := st.tickIdx + 1,
                      trace := st.trace ++ statusEvs, cs_high := true }) := by
  cases fuel with
  | zero => exact absurd rfl hf
  | succ n =>
    have hb := h.2 st.spiIdx
    simp [IS25LP_WaitForReady, HAL_GetTick, waitLoop, IS25LP_ReadStatusRegister,
      SPI_CS_Low, SPI_CS_High, HAL_SPI_TransmitReceive, emit, List.range_succ,
      hb, statusEvs]

lemma writeEnable_ready (env : Env) (h : ReadyEnv env) (st : DState) :
    IS25LP_WriteEnable env st =
      (.ok, { st with spiIdx := st.spiIdx + 1,
                      trace := st.trace ++ weEvs, cs_high := true }) := by
  have ho := h.1 st.spiIdx
  simp [IS25LP_WriteEnable, SPI_CS_Low, SPI_CS_High, HAL_SPI_Transmit, emit, ho, weEvs]

lemma read_ready (env : Env) (h : ReadyEnv env) (fuel a l : Nat) (st : DState)
    (hf : fuel ≠ 0) (hl : l ≠ 0) (hr : (a + l) % 4294967296 ≤ IS25LP_CHIP_SIZE) :
    IS25LP_Read env fuel a false l st =
      (.ok, { st with spiIdx := st.spiIdx + 3, tickIdx := st.tickIdx + 1,
                      trace := st.trace ++ readEvs a l, cs_high := true }) := by
  rw [IS25LP_Read]
  rw [waitForReady_ready env h _ fuel st hf]
  have h1 := h.1 (st.spiIdx + 1)
  have h2 := h.1 (st.spiIdx + 2)
  simp [hl, Nat.not_lt.mpr hr, SPI_CS_Low, SPI_CS_High, HAL_SPI_Transmit,
    HAL_SPI_Receive, emit, h1, h2, readEvs, readCmd, statusEvs]

lemma fastRead_ready (env : Env) (h : ReadyEnv env) (fuel a l : Nat) (st : DState)
    (hf : fuel ≠ 0) (hl : l ≠ 0) (hr : (a + l) % 4294967296 ≤ IS25LP_CHIP_SIZE) :
    IS25LP_FastRead env fuel a false l st =
      (.ok, { st with spiIdx := st.spiIdx + 3, tickIdx := st.tickIdx + 1,
                      trace := st.trace ++ fastReadEvs a l, cs_high := true }) := by
  rw [IS25LP_FastRead]
  rw [waitForReady_ready env h _ fuel st hf]
  have h1 := h.1 (st.spiIdx + 1)
  have h2 := h.1 (st.spiIdx + 2)
  simp [hl, Nat.not_lt.mpr hr, SPI_CS_Low, SPI_CS_High, HAL_SPI_Transmit,
    HAL_SPI_Receive, emit, h1, h2, fastReadEvs, fastReadCmd, statusEvs]

lemma writePage_ready (env : Env) (h : ReadyEnv env) (fuel a l : Nat)
    (buf : List Nat) (st : DState) (hf : fuel ≠ 0) (hl : l ≠ 0)
    (hlp : l ≤ IS25LP_PAGE_SIZE) (ha : a < IS25LP_CHIP_SIZE)
    (hpo : a % IS25LP_PAGE_SIZE + l ≤ IS25LP_PAGE_SIZE) :
    IS25LP_WritePage env fuel a (some buf) l st =
      (.ok, { st with spiIdx := st.spiIdx + 5, tickIdx := st.tickIdx + 2,
                      trace := st.trace ++ writePageEvs a (buf.take l),
                      cs_high := true }) := by
  have hnl : ¬(l > IS25LP_PAGE_SIZE) := Nat.not_lt.mpr hlp
  have hna : ¬(a ≥ IS25LP_CHIP_SIZE) := Nat.not_le.mpr ha
  have hnpo : ¬(a % IS25LP_PAGE_SIZE + l > IS25LP_PAGE_SIZE) := Nat.not_lt.mpr hpo
  have h1 := h.1
  simp [IS25LP_WritePage, hl, hnl, hna, hnpo, waitForReady_ready env h,
    writeEnable_ready env h, hf, SPI_CS_Low, SPI_CS_High, HAL_SPI_Transmit,
    emit, h1, writePageEvs, pageCmd, statusEvs, weEvs]

lemma eraseSector_ready (env : Env) (h : ReadyEnv env) (fuel a : Nat) (st : DState)
    (hf : fuel ≠ 0) (ha : a < IS25LP_CHIP_SIZE) :
    IS25LP_EraseSector env fuel a st =
      (.ok, { st with spiIdx := st.spiIdx + 4, tickIdx := st.tickIdx + 2,
                      trace := st.trace ++
                        eraseEvs CMD_SECTOR_ERASE (a / IS25LP_SECTOR_SIZE * IS25LP_SECTOR_SIZE),
                      cs_high := true }) := by
  have hna : ¬(a ≥ IS25LP_CHIP_SIZE) := Nat.not_le.mpr ha
  have h1 := h.1
  simp [IS25LP_EraseSector, hna, waitForReady_ready env h, writeEnable_ready env h,
    hf, SPI_CS_Low, SPI_CS_High, HAL_SPI_Transmit, emit, h1, eraseEvs, eraseCmd,
    statusEvs, weEvs]

lemma eraseBlock32K_ready (env : Env) (h : ReadyEnv env) (fuel a : Nat) (st : DState)
    (hf : fuel ≠ 0) (ha : a < IS25LP_CHIP_SIZE) :
    IS25LP_EraseBlock32K env fuel a st =
      (.ok, { st with spiIdx := st.spiIdx + 4, tickIdx := st.tickIdx + 2,
                      trace := st.trace ++
                        eraseEvs CMD_BLOCK_ERASE_32K (a / IS25LP_BLOCK_32K_SIZE * IS25LP_BLOCK_32K_SIZE),
                      cs_high := true }) := by
  have hna : ¬(a ≥ IS25LP_CHIP_SIZE) := Nat.not_le.mpr ha
  have h1 := h.1
  simp [IS25LP_EraseBlock32K, hna, waitForReady_ready env h, writeEnable_ready env h,
    hf, SPI_CS_Low, SPI_CS_High, HAL_SPI_Transmit, emit, h1, eraseEvs, eraseCmd,
    statusEvs, weEvs]

lemma eraseBlock64K_ready (env : Env) (h : ReadyEnv env) (fuel a : Nat) (st : DState)
    (hf : fuel ≠ 0) (ha : a < IS25LP_CHIP_SIZE) :
    IS25LP_EraseBlock64K env fuel a st =
      (.ok, { st with spiIdx := st.spiIdx + 4, tickIdx := st.tickIdx + 2,
                      trace := st.trace ++
                        eraseEvs CMD_BLOCK_ERASE_64K (a / IS25LP_BLOCK_64K_SIZE * IS25LP_BLOCK_64K_SIZE),
                      cs_high := true }) := by
  have hna : ¬(a ≥ IS25LP_CHIP_SIZE) := Nat.not_le.mpr ha
  have h1 := h.1
  simp [IS25LP_EraseBlock64K, hna, waitForReady_ready env h, writeEnable_ready env h,
    hf, SPI_CS_Low, SPI_CS_High, HAL_SPI_Transmit, emit, h1, eraseEvs, eraseCmd,
    statusEvs, weEvs]

lemma ite_chunk_eq_min (remaining b : Nat) :
    (if remaining > b then b else remaining) = min remaining b := by
  rcases le_or_lt remaining b with hle | hlt
  · rw [if_neg (by omega), Nat.min_eq_left hle]
  · rw [if_pos hlt, Nat.min_eq_right (by omega)]

lemma writeLoop_ready (env : Env) (h : ReadyEnv env) (fuel : Nat) (hf : fuel ≠ 0) :
    ∀ bound a buf remaining st, remaining ≤ bound →
      a + remaining ≤ IS25LP_CHIP_SIZE → remaining ≤ buf.length →
      ∃ st', writeLoop env fuel bound a buf remaining st = (.ok, st') ∧
        st'.trace = st.trace ++ writeTraceEvs bound a buf remaining := by
  intro bound
  induction bound with
  | zero =>
    intro a buf remaining st hb _ _
    have hr0 : remaining = 0 := Nat.le_zero.mp hb
    subst hr0
    exact ⟨st, by simp [writeLoop, writeTraceEvs]⟩
  | succ bound ih =>
    intro a buf remaining st hb hchip hbuf
    by_cases hr0 : remaining = 0
    · subst hr0
      exact ⟨st, by simp [writeLoop, writeTraceEvs]⟩
    · have hps : IS25LP_PAGE_SIZE = 256 := rfl
      have hcs : IS25LP_CHIP_SIZE = 524288 := rfl
      have hofflt : a % IS25LP_PAGE_SIZE < IS25LP_PAGE_SIZE :=
        Nat.mod_lt _ (by rw [hps]; omega)
      simp only [writeLoop, writeTraceEvs, beq_iff_eq, hr0, if_false,
        ite_chunk_eq_min]
      have hm0 : min remaining (IS25LP_PAGE_SIZE - a % IS25LP_PAGE_SIZE) ≠ 0 := by
        omega
      have hm256 : min remaining (IS25LP_PAGE_SIZE - a % IS25LP_PAGE_SIZE) ≤
          IS25LP_PAGE_SIZE := by omega
      have haC : a < IS25LP_CHIP_SIZE := by omega
      have hoff : a % IS25LP_PAGE_SIZE +
          min remaining (IS25LP_PAGE_SIZE - a % IS25LP_PAGE_SIZE) ≤
          IS25LP_PAGE_SIZE := by omega
      have hmod : (a + min remaining (IS25LP_PAGE_SIZE - a % IS25LP_PAGE_SIZE)) %
          4294967296 = a + min remaining (IS25LP_PAGE_SIZE - a % IS25LP_PAGE_SIZE) := by
        apply Nat.mod_eq_of_lt
        omega
      rw [writePage_ready env h fuel a _ buf st hf hm0 hm256 haC hoff]
      simp only [hmod]
      obtain ⟨st', hrun, htr⟩ := ih
        (a + min remaining (IS25LP_PAGE_SIZE - a % IS25LP_PAGE_SIZE))
        (buf.drop (min remaining (IS25LP_PAGE_SIZE - a % IS25LP_PAGE_SIZE)))
        (remaining - min remaining (IS25LP_PAGE_SIZE - a % IS25LP_PAGE_SIZE))
        { st with spiIdx := st.spiIdx + 5, tickIdx := st.tickIdx + 2,
                  trace := st.trace ++
                    writePageEvs a (buf.take
                      (min remaining (IS25LP_PAGE_SIZE - a % IS25LP_PAGE_SIZE))),
                  cs_high := true }
        (by omega) (by omega) (by simp; omega)
      rw [hrun]
      refine ⟨st', rfl, ?_⟩
      rw [htr]
      simp [List.append_assoc]

lemma decode_addr (a : Nat) (h : a < 16777216) :
    ((a >>> 16) &&& 0xFF) * 65536 + ((a >>> 8) &&& 0xFF) * 256 + (a &&& 0xFF) = a := by
  rw [hi_eq, mid_eq, and255]
  omega

lemma pageProgs_writePageEvs (a : Nat) (p : List Nat) (rest : List Event)
    (h : a < 16777216) :
    pageProgs (writePageEvs a p ++ rest) = (a, p.length) :: pageProgs rest := by
  have hd := decode_addr a h
  simp [writePageEvs, statusEvs, weEvs, pageCmd, CMD_PAGE_PROGRAM,
    CMD_READ_STATUS_REG, CMD_WRITE_ENABLE, DUMMY_BYTE, pageProgs, hd]

lemma pageProgs_writeTraceEvs :
    ∀ bound a buf remaining, a + remaining ≤ IS25LP_CHIP_SIZE →
      remaining ≤ buf.length →
      pageProgs (writeTraceEvs bound a buf remaining) = specChunksAux bound a remaining := by
  intro bound
  induction bound with
  | zero =>
    intro a buf remaining _ _
    cases remaining <;> simp [writeTraceEvs, specChunksAux, pageProgs]
  | succ bound ih =>
    intro a buf remaining hchip hbuf
    cases remaining with
    | zero => simp [writeTraceEvs, specChunksAux, pageProgs]
    | succ l =>
      have hps : IS25LP_PAGE_SIZE = 256 := rfl
      have hcs : IS25LP_CHIP_SIZE = 524288 := rfl
      have hofflt : a % IS25LP_PAGE_SIZE < IS25LP_PAGE_SIZE :=
        Nat.mod_lt _ (by rw [hps]; omega)
      have ha24 : a < 16777216 := by omega
      have hc : min (l + 1) (IS25LP_PAGE_SIZE - a % IS25LP_PAGE_SIZE) ≤ buf.length := by
        omega
      rw [writeTraceEvs, specChunksAux]
      simp only [beq_iff_eq, Nat.succ_ne_zero, if_false, ite_chunk_eq_min]
      rw [pageProgs_writePageEvs _ _ _ ha24]
      rw [ih _ _ _ (by omega) (by simp; omega)]
      simp [List.length_take, Nat.min_eq_left hc]

lemma specChunksAux_sum : ∀ bound a l, l ≤ bound →
    ((specChunksAux bound a l).map Prod.snd).sum = l := by
  intro bound
  induction bound with
  | zero =>
    intro a l hl
    have : l = 0 := Nat.le_zero.mp hl
    subst this
    simp [specChunksAux]
  | succ bound ih =>
    intro a l hl
    cases l with
    | zero => simp [specChunksAux]
    | succ l =>
      have hps : IS25LP_PAGE_SIZE = 256 := rfl
      have hofflt : a % IS25LP_PAGE_SIZE < IS25LP_PAGE_SIZE :=
        Nat.mod_lt _ (by rw [hps]; omega)
      rw [specChunksAux]
      simp only [List.map_cons, List.sum_cons]
      rw [ih _ _ (by omega)]
      omega

lemma specChunksAux_mem : ∀ bound a l p, a + l ≤ IS25LP_CHIP_SIZE →
    p ∈ specChunksAux bound a l →
    1 ≤ p.2 ∧ p.2 ≤ IS25LP_PAGE_SIZE ∧ p.1 < IS25LP_CHIP_SIZE ∧
      p.1 % IS25LP_PAGE_SIZE + p.2 ≤ IS25LP_PAGE_SIZE := by
  intro bound
  induction bound with
  | zero =>
    intro a l p _ hp
    simp [specChunksAux] at hp
  | succ bound ih =>
    intro a l p hchip hp
    cases l with
    | zero => simp [specChunksAux] at hp
    | succ l =>
      have hps : IS25LP_PAGE_SIZE = 256 := rfl
      have hcs : IS25LP_CHIP_SIZE = 524288 := rfl
      have hofflt : a % IS25LP_PAGE_SIZE < IS25LP_PAGE_SIZE :=
        Nat.mod_lt _ (by rw [hps]; omega)
      rw [specChunksAux] at hp
      simp only [List.mem_cons] at hp
      rcases hp with hp | hp
      · subst hp
        try dsimp only
        refine ⟨by omega, by omega, by omega, ?_⟩
        omega
      · exact ih _ _ _ (by omega) hp

lemma cs_of_eq {r : eIS25LP_Status_t × DState} {s : eIS25LP_Status_t} {st' : DState}
    (h : r = (s, st')) (hc : r.2.cs_high = true) : st'.cs_high = true := by
  rw [h] at hc
  exact hc

lemma csHigh_cs (st : DState) : (SPI_CS_High st).cs_high = true := rfl

lemma readStatus_cs (env : Env) (st : DState) :
    ((IS25LP_ReadStatusRegister env st).2).cs_high = true := rfl

lemma waitLoop_cs (env : Env) (t ts : Nat) :
    ∀ fuel st, st.cs_high = true → ((waitLoop env t ts fuel st).2).cs_high = true := by
  intro fuel
  induction fuel with
  | zero => intro st hcs; exact hcs
  | succ n ih =>
    intro st hcs
    rw [waitLoop]
    split
    · try dsimp only
      split
      · exact rfl
      · exact ih _ rfl
    · exact rfl

lemma waitForReady_cs (env : Env) (t fuel : Nat) (st : DState)
    (hcs : st.cs_high = true) :
    ((IS25LP_WaitForReady env t fuel st).2).cs_high = true := by
  unfold IS25LP_WaitForReady
  exact waitLoop_cs env t _ fuel _ hcs

lemma writeEnable_cs (env : Env) (st : DState) :
    ((IS25LP_WriteEnable env st).2).cs_high = true := rfl

lemma read_cs (env : Env) (fuel a l : Nat) (b : Bool) (st : DState)
    (hcs : st.cs_high = true) :
    ((IS25LP_Read env fuel a b l st).2).cs_high = true := by
  unfold IS25LP_Read
  split
  · exact hcs
  · split
    · exact hcs
    · split
      · next st1 heq => exact cs_of_eq heq (waitForReady_cs env _ fuel st hcs)
      · try dsimp only
        split
        · exact rfl
        · split
          · exact rfl
          · exact rfl

lemma fastRead_cs (env : Env) (fuel a l : Nat) (b : Bool) (st : DState)
    (hcs : st.cs_high = true) :
    ((IS25LP_FastRead env fuel a b l st).2).cs_high = true := by
  unfold IS25LP_FastRead
  split
  · exact hcs
  · split
    · exact hcs
    · split
      · next st1 heq => exact cs_of_eq heq (waitForReady_cs env _ fuel st hcs)
      · try dsimp only
        split
        · exact rfl
        · split
          · exact rfl
          · exact rfl

lemma writePage_cs (env : Env) (fuel a l : Nat) (buf : Option (List Nat))
    (st : DState) (hcs : st.cs_high = true) :
    ((IS25LP_WritePage env fuel a buf l st).2).cs_high = true := by
  unfold IS25LP_WritePage
  split
  · exact hcs
  · split
    · exact hcs
    · try dsimp only
      split
      · exact hcs
      · split
        · next st1 heq => exact cs_of_eq heq (waitForReady_cs env _ fuel st hcs)
        · next st1 heq =>
          split
          · next st2 heq2 =>
            exact cs_of_eq heq2 (writeEnable_cs env st1)
          · next st2 heq2 =>
            try dsimp only
            split
            · exact rfl
            · split
              · exact rfl
              · exact waitForReady_cs env _ fuel _ rfl

lemma writeLoop_cs (env : Env) (fuel : Nat) :
    ∀ bound a buf remaining st, st.cs_high = true →
      ((writeLoop env fuel bound a buf remaining st).2).cs_high = true := by
  intro bound
  induction bound with
  | zero =>
    intro a buf remaining st hcs
    rw [writeLoop]
    split
    · exact hcs
    · exact hcs
  | succ bound ih =>
    intro a buf remaining st hcs
    rw [writeLoop]
    split
    · exact hcs
    · try dsimp only
      split
      · next st1 heq =>
        exact cs_of_eq heq (writePage_cs env fuel a _ _ st hcs)
      · next st1 heq =>
        exact ih _ _ _ _ (cs_of_eq heq (writePage_cs env fuel a _ _ st hcs))

lemma write_cs (env : Env) (fuel a l : Nat) (buf : Option (List Nat))
    (st : DState) (hcs : st.cs_high = true) :
    ((IS25LP_Write env fuel a buf l st).2).cs_high = true := by
  unfold IS25LP_Write
  split
  · exact hcs
  · split
    · exact hcs
    · exact writeLoop_cs env fuel l a _ l st hcs

lemma eraseSector_cs (env : Env) (fuel a : Nat) (st : DState)
    (hcs : st.cs_high = true) :
    ((IS25LP_EraseSector env fuel a st).2).cs_high = true := by
  unfold IS25LP_EraseSector
  split
  · exact hcs
  · try dsimp only
    split
    · next st1 heq => exact cs_of_eq heq (waitForReady_cs env _ fuel st hcs)
    · next st1 heq =>
      split
      · next st2 heq2 => exact cs_of_eq heq2 (writeEnable_cs env st1)
      · next st2 heq2 =>
        try dsimp only
        split
        · exact rfl
        · exact waitForReady_cs env _ fuel _ rfl

lemma eraseBlock32K_cs (env : Env) (fuel a : Nat) (st : DState)
    (hcs : st.cs_high = true) :
    ((IS25LP_EraseBlock32K env fuel a st).2).cs_high = true := by
  unfold IS25LP_EraseBlock32K
  split
  · exact hcs
  · try dsimp only
    split
    · next st1 heq => exact cs_of_eq heq (waitForReady_cs env _ fuel st hcs)
    · next st1 heq =>
      split
      · next st2 heq2 => exact cs_of_eq heq2 (writeEnable_cs env st1)
      · next st2 heq2 =>
        try dsimp only
        split
        · exact rfl
        · exact waitForReady_cs env _ fuel _ rfl

lemma eraseBlock64K_cs (env : Env) (fuel a : Nat) (st : DState)
    (hcs : st.cs_high = true) :
    ((IS25LP_EraseBlock64K env fuel a st).2).cs_high = true := by
  unfold IS25LP_EraseBlock64K
  split
  · exact hcs
  · try dsimp only
    split
    · next st1 heq => exact cs_of_eq heq (waitForReady_cs env _ fuel st hcs)
    · next st1 heq =>
      split
      · next st2 heq2 => exact cs_of_eq heq2 (writeEnable_cs env st1)
      · next st2 heq2 =>
        try dsimp only
        split
        · exact rfl
        · exact waitForReady_cs env _ fuel _ rfl

lemma eraseChip_cs (env : Env) (fuel : Nat) (st : DState)
    (hcs : st.cs_high = true) :
    ((IS25LP_EraseChip env fuel st).2).cs_high = true := by
  unfold IS25LP_EraseChip
  split
  · next st1 heq => exact cs_of_eq heq (waitForReady_cs env _ fuel st hcs)
  · next st1 heq =>
    split
    · next st2 heq2 => exact cs_of_eq heq2 (writeEnable_cs env st1)
    · next st2 heq2 =>
      try dsimp only
      split
      · exact rfl
      · exact waitForReady_cs env _ fuel _ rfl

lemma readJedecID_cs (env : Env) (st : DState) :
    ((IS25LP_ReadJedecID env st).2).cs_high = true := by
  unfold IS25LP_ReadJedecID
  try dsimp only
  split
  · exact rfl
  · exact rfl

lemma readDeviceID_cs (env : Env) (st : DState) :
    ((IS25LP_ReadDeviceID env st).2).cs_high = true := by
  unfold IS25LP_ReadDeviceID
  try dsimp only
  split
  · exact rfl
  · exact rfl

lemma readUniqueID_cs (env : Env) (st : DState) :
    ((IS25LP_ReadUniqueID env st).2).cs_high = true := by
  unfold IS25LP_ReadUniqueID
  try dsimp only
  split
  · exact rfl
  · exact rfl

lemma init_cs (env : Env) (handle : sIS25LP_Handle_t) (st : DState) :
    ((IS25LP_Init env handle st).2.2).cs_high = true := by
  unfold IS25LP_Init
  try dsimp only
  split
  · next st1 heq =>
    have := readJedecID_cs env (HAL_Delay 10 (SPI_CS_High st))
    rw [heq] at this
    exact this
  · next m t c st1 heq =>
    have h1 : st1.cs_high = true := by
      have := readJedecID_cs env (HAL_Delay 10 (SPI_CS_High st))
      rw [heq] at this
      exact this
    split
    · exact h1
    · split
      · exact h1
      · exact h1

lemma getDeviceInfo_cs (env : Env) (handle : sIS25LP_Handle_t) (st : DState)
    (hcs : st.cs_high = true) :
    ((IS25LP_GetDeviceInfo env handle st).2).cs_high = true := by
  unfold IS25LP_GetDeviceInfo
  split
  · exact hcs
  · split
    · next st1 heq =>
      have := readJedecID_cs env st
      rw [heq] at this
      exact this
    · next m t c st1 heq =>
      have h1 : st1.cs_high = true := by
        have := readJedecID_cs env st
        rw [heq] at this
        exact this
      split
      · next st2 heq2 =>
        have := readUniqueID_cs env st1
        rw [heq2] at this
        exact this
      · next uid st2 heq2 =>
        have := readUniqueID_cs env st1
        rw [heq2] at this
        exact this

lemma waitLoop_busy :
    ∀ fuel k timeout st, st.tickIdx = k + 1 → k ≤ timeout →
      timeout + 1 - k ≤ fuel → timeout + 2 < 4294967296 →
      ∃ st', waitLoop envBusy timeout 0 fuel st = (.error, st') ∧
        st'.tickIdx = timeout + 2 := by
  intro fuel
  induction fuel with
  | zero =>
    intro k timeout st _ hk hfuel _
    omega
  | succ n ih =>
    intro k timeout st htk hk hfuel hlt
    rw [waitLoop]
    have hsr : (IS25LP_ReadStatusRegister envBusy st).1 = 1 := rfl
    rw [hsr]
    have hbusy : (1 : Nat) &&& STATUS_BUSY ≠ 0 := by decide
    rw [if_pos hbusy]
    have htick : (HAL_GetTick envBusy (IS25LP_ReadStatusRegister envBusy st).2).1 =
        k + 1 := by
      simp [HAL_GetTick, IS25LP_ReadStatusRegister, SPI_CS_Low, SPI_CS_High,
        HAL_SPI_TransmitReceive, emit, envBusy, htk]
      omega
    have htick2 : (HAL_GetTick envBusy (IS25LP_ReadStatusRegister envBusy st).2).2.tickIdx =
        k + 2 := by
      simp [HAL_GetTick, IS25LP_ReadStatusRegister, SPI_CS_Low, SPI_CS_High,
        HAL_SPI_TransmitReceive, emit, htk]
    dsimp only
    rw [htick]
    by_cases hend : k = timeout
    · subst hend
      rw [if_pos (by omega)]
      exact ⟨_, rfl, by rw [htick2]⟩
    · rw [if_neg (by omega)]
      exact ih (k + 1) timeout _ (by simp [HAL_Delay, emit]; omega) (by omega)
        (by omega) hlt

lemma waitForReady_busy (timeout fuel : Nat) (st : DState) (htk : st.tickIdx = 0)
    (hfuel : timeout + 1 ≤ fuel) (hlt : timeout + 2 < 4294967296) :
    ∃ st', IS25LP_WaitForReady envBusy timeout fuel st = (.error, st') ∧
      st'.tickIdx = timeout + 2 := by
  unfold IS25LP_WaitForReady
  dsimp only
  have h0 : (HAL_GetTick envBusy st).1 = 0 := by
    simp [HAL_GetTick, envBusy, htk]
  rw [h0]
  exact waitLoop_busy fuel 0 timeout _ (by simp [HAL_GetTick, htk]) (by omega)
    (by omega) hlt

/-- C2: a page-program call whose length exceeds the page size, or whose
(address mod page size) + length would cross the page boundary, returns
`IS25LP_ERROR` with the state unchanged: no SPI transfer and no chip-select
change occurs, and the boundary-crossing write is rejected, not wrapped. -/
theorem claim_C2 (env : Env) (fuel a l : Nat) (buffer : Option (List Nat))
    (st : DState)
    (h : l > IS25LP_PAGE_SIZE ∨ a % IS25LP_PAGE_SIZE + l > IS25LP_PAGE_SIZE) :
    IS25LP_WritePage env fuel a buffer l st = (.error, st) := by
  unfold IS25LP_WritePage
  split
  · rfl
  · next hc1 =>
    split
    · rfl
    · try dsimp only
      have hl : ¬l > IS25LP_PAGE_SIZE := by
        intro hgt
        exact hc1 (by simp [hgt])
      rcases h with h | h
      · exact absurd h hl
      · rw [if_pos h]

theorem claim_C2_witness :
    IS25LP_WritePage envReady 1 0x0FF0 (some (List.replicate 32 0x11)) 32
      DState.init = (.error, DState.init) :=
  claim_C2 envReady 1 0x0FF0 32 (some (List.replicate 32 0x11)) DState.init
    (Or.inr (by decide))

/-- C3 counterexample: with `address = 0x10` and `length = 0xFFFFFFF8` the
mathematical sum exceeds the chip size, yet the uint32 range check wraps to
`0x8`, so `IS25LP_Read` proceeds, touches the transport (non-empty trace)
and returns `IS25LP_OK` — refuting the claim as stated. -/
theorem claim_C3_counterexample :
    0x10 + 0xFFFFFFF8 > IS25LP_CHIP_SIZE ∧
    (IS25LP_Read envReady 1 0x10 false 0xFFFFFFF8 DState.init).1 = .ok ∧
    (IS25LP_Read envReady 1 0x10 false 0xFFFFFFF8 DState.init).2.trace ≠ [] := by
  decide

/-- C3 (amended): for all uint32 addresses `a` and lengths `l` whose
wrapped uint32 sum `(a + l) mod 2^32` exceeds the chip size, Read, FastRead
and Write return `IS25LP_ERROR` with the state unchanged (no transport
activity). -/
theorem claim_C3 (env : Env) (fuel a l : Nat) (bufNull : Bool)
    (buffer : Option (List Nat)) (st : DState)
    (h : (a + l) % 4294967296 > IS25LP_CHIP_SIZE) :
    IS25LP_Read env fuel a bufNull l st = (.error, st) ∧
    IS25LP_FastRead env fuel a bufNull l st = (.error, st) ∧
    IS25LP_Write env fuel a buffer l st = (.error, st) := by
  refine ⟨?_, ?_, ?_⟩
  · unfold IS25LP_Read
    split
    · rfl
    · rfl
  · unfold IS25LP_FastRead
    split
    · rfl
    · rfl
  · unfold IS25LP_Write
    split
    · rfl
    · rfl

theorem claim_C3_witness :
    IS25LP_Read envReady 1 524288 false 1 DState.init = (.error, DState.init) ∧
    IS25LP_FastRead envReady 1 524288 false 1 DState.init = (.error, DState.init) ∧
    IS25LP_Write envReady 1 524288 (some [0]) 1 DState.init =
      (.error, DState.init) :=
  claim_C3 envReady 1 524288 1 false (some [0]) DState.init (by decide)

/-- C4: each erase operation, on an in-range address in a failure-free
environment, issues its erase command with the address aligned down to its
granularity boundary `(address / granularity) * granularity`, for sector
(4096), 32K-block (32768) and 64K-block (65536) granularities. -/
theorem claim_C4 (env : Env) (h : ReadyEnv env) (fuel a : Nat) (st : DState)
    (hf : fuel ≠ 0) (ha : a < IS25LP_CHIP_SIZE) :
    (∃ st', IS25LP_EraseSector env fuel a st = (.ok, st') ∧
      Event.spiTx (eraseCmd CMD_SECTOR_ERASE
        (a / IS25LP_SECTOR_SIZE * IS25LP_SECTOR_SIZE)) ∈ st'.trace) ∧
    (∃ st', IS25LP_EraseBlock32K env fuel a st = (.ok, st') ∧
      Event.spiTx (eraseCmd CMD_BLOCK_ERASE_32K
        (a / IS25LP_BLOCK_32K_SIZE * IS25LP_BLOCK_32K_SIZE)) ∈ st'.trace) ∧
    (∃ st', IS25LP_EraseBlock64K env fuel a st = (.ok, st') ∧
      Event.spiTx (eraseCmd CMD_BLOCK_ERASE_64K
        (a / IS25LP_BLOCK_64K_SIZE * IS25LP_BLOCK_64K_SIZE)) ∈ st'.trace) := by
  refine ⟨?_, ?_, ?_⟩
  · rw [eraseSector_ready env h fuel a st hf ha]
    exact ⟨_, rfl, by simp [eraseEvs, statusEvs, weEvs]⟩
  · rw [eraseBlock32K_ready env h fuel a st hf ha]
    exact ⟨_, rfl, by simp [eraseEvs, statusEvs, weEvs]⟩
  · rw [eraseBlock64K_ready env h fuel a st hf ha]
    exact ⟨_, rfl, by simp [eraseEvs, statusEvs, weEvs]⟩

theorem claim_C4_witness :
    ∃ st', IS25LP_EraseSector envReady 1 0x1234 DState.init = (.ok, st') ∧
      Event.spiTx [0x20, 0x00, 0x10, 0x00] ∈ st'.trace := by
  have h := (claim_C4 envReady envReady_ready 1 0x1234 DState.init
    (by decide) (by decide)).1
  have he : eraseCmd CMD_SECTOR_ERASE
      (0x1234 / IS25LP_SECTOR_SIZE * IS25LP_SECTOR_SIZE) =
      [0x20, 0x00, 0x10, 0x00] := by decide
  rw [he] at h
  exact h

/-- C6: when the busy bit never clears and the tick counter advances one
millisecond per poll (one `HAL_Delay(1)` per iteration), the busy-wait loop
used by every polling operation terminates and returns `IS25LP_ERROR`; the
final tick observation is `timeout_ms + 1` milliseconds past the recorded
start (`st'.tickIdx = timeout_ms + 2` counts the initial tick read plus
`timeout_ms + 1` loop reads), i.e. the elapsed time strictly exceeds the
budget (not before) and exceeds it by at most one poll period (not
indefinitely after). -/
theorem claim_C6 (timeout_ms fuel : Nat) (st : DState) (htk : st.tickIdx = 0)
    (hfuel : timeout_ms + 1 ≤ fuel) (hlt : timeout_ms + 2 < 4294967296) :
    ∃ st', IS25LP_WaitForReady envBusy timeout_ms fuel st = (.error, st') ∧
      st'.tickIdx = timeout_ms + 2 ∧
      timeout_ms < envBusy.tick (st'.tickIdx - 1) ∧
      envBusy.tick (st'.tickIdx - 1) ≤ timeout_ms + 1 := by
  obtain ⟨st', h1, h2⟩ := waitForReady_busy timeout_ms fuel st htk hfuel hlt
  refine ⟨st', h1, h2, ?_, ?_⟩
  · show timeout_ms < st'.tickIdx - 1
    omega
  · show st'.tickIdx - 1 ≤ timeout_ms + 1
    omega

theorem claim_C6_witness :
    ∃ st', IS25LP_WaitForReady envBusy 5 6 DState.init = (.error, st') ∧
      st'.tickIdx = 7 ∧ 5 < envBusy.tick (st'.tickIdx - 1) ∧
      envBusy.tick (st'.tickIdx - 1) ≤ 6 :=
  claim_C6 5 6 DState.init rfl (by decide) (by decide)

/-- C9: every public operation deasserts the chip-select line on every exit
path, error paths included: if chip-select is high (idle) on entry, it is
high again when the operation returns, for every environment and argument. -/
theorem claim_C9 (env : Env) (fuel a l : Nat) (bufNull : Bool)
    (buffer : Option (List Nat)) (handle : sIS25LP_Handle_t) (st : DState)
    (hcs : st.cs_high = true) :
    ((IS25LP_Init env handle st).2.2).cs_high = true ∧
    ((IS25LP_ReadJedecID env st).2).cs_high = true ∧
    ((IS25LP_ReadDeviceID env st).2).cs_high = true ∧
    ((IS25LP_ReadUniqueID env st).2).cs_high = true ∧
    ((IS25LP_GetDeviceInfo env handle st).2).cs_high = true ∧
    ((IS25LP_Read env fuel a bufNull l st).2).cs_high = true ∧
    ((IS25LP_FastRead env fuel a bufNull l st).2).cs_high = true ∧
    ((IS25LP_WritePage env fuel a buffer l st).2).cs_high = true ∧
    ((IS25LP_Write env fuel a buffer l st).2).cs_high = true ∧
    ((IS25LP_EraseSector env fuel a st).2).cs_high = true ∧
    ((IS25LP_EraseBlock32K env fuel a st).2).cs_high = true ∧
    ((IS25LP_EraseBlock64K env fuel a st).2).cs_high = true ∧
    ((IS25LP_EraseChip env fuel st).2).cs_high = true :=
  ⟨init_cs env handle st, readJedecID_cs env st, readDeviceID_cs env st,
   readUniqueID_cs env st, getDeviceInfo_cs env handle st hcs,
   read_cs env fuel a l bufNull st hcs, fastRead_cs env fuel a l bufNull st hcs,
   writePage_cs env fuel a l buffer st hcs, write_cs env fuel a l buffer st hcs,
   eraseSector_cs env fuel a st hcs, eraseBlock32K_cs env fuel a st hcs,
   eraseBlock64K_cs env fuel a st hcs, eraseChip_cs env fuel st hcs⟩

theorem claim_C9_witness :
    ((IS25LP_Init envReady ⟨false⟩ DState.init).2.2).cs_high = true ∧
    ((IS25LP_ReadJedecID envReady DState.init).2).cs_high = true ∧
    ((IS25LP_ReadDeviceID envReady DState.init).2).cs_high = true ∧
    ((IS25LP_ReadUniqueID envReady DState.init).2).cs_high = true ∧
    ((IS25LP_GetDeviceInfo envReady ⟨false⟩ DState.init).2).cs_high = true ∧
    ((IS25LP_Read envReady 1 0 false 1 DState.init).2).cs_high = true ∧
    ((IS25LP_FastRead envReady 1 0 false 1 DState.init).2).cs_high = true ∧
    ((IS25LP_WritePage envReady 1 0 (some [0]) 1 DState.init).2).cs_high = true ∧
    ((IS25LP_Write envReady 1 0 (some [0]) 1 DState.init).2).cs_high = true ∧
    ((IS25LP_EraseSector envReady 1 0 DState.init).2).cs_high = true ∧
    ((IS25LP_EraseBlock32K envReady 1 0 DState.init).2).cs_high = true ∧
    ((IS25LP_EraseBlock64K envReady 1 0 DState.init).2).cs_high = true ∧
    ((IS25LP_EraseChip envReady 1 DState.init).2).cs_high = true :=
  claim_C9 envReady 1 0 1 false (some [0]) ⟨false⟩ DState.init rfl

/-- C1: a multi-page write of `L > 0` bytes at address `A` (in range, in a
failure-free environment) issues page-program calls exactly at the chunk
decomposition `specChunks A L` (start addresses `A, A+c1, A+c1+c2, ...`,
each `ci = min(remaining, pageSize - (address_i mod pageSize))`), and the
chunk lengths sum to `L`. -/
theorem claim_C1 (env : Env) (h : ReadyEnv env) (fuel A L : Nat)
    (buf : List Nat) (hf : fuel ≠ 0) (hL : 0 < L)
    (hrange : A + L ≤ IS25LP_CHIP_SIZE) (hbuf : L ≤ buf.length) :
    pageProgs ((IS25LP_Write env fuel A (some buf) L DState.init).2.trace) =
      specChunks A L ∧
    ((specChunks A L).map Prod.snd).sum = L := by
  constructor
  · unfold IS25LP_Write
    have hL0 : ¬(L == 0) = true := by simp; omega
    have hw : ¬(A + L) % 4294967296 > IS25LP_CHIP_SIZE := by
      have : (A + L) % 4294967296 ≤ A + L := Nat.mod_le _ _
      omega
    simp only [Option.isNone_some, Option.getD_some, Bool.false_or, hL0, Bool.false_eq_true, if_false, hw]
    obtain ⟨st', hrun, htr⟩ :=
      writeLoop_ready env h fuel hf L A buf L DState.init (le_refl L) hrange hbuf
    rw [hrun]
    simp only [htr, DState.init]
    rw [List.nil_append]
    exact pageProgs_writeTraceEvs L A buf L hrange hbuf
  · exact specChunksAux_sum L A L (le_refl L)

theorem claim_C1_witness :
    pageProgs ((IS25LP_Write envReady 1 0x0FF0
        (some (List.replicate 32 0x11)) 32 DState.init).2.trace) =
      specChunks 0x0FF0 32 ∧
    ((specChunks 0x0FF0 32).map Prod.snd).sum = 32 ∧
    specChunks 0x0FF0 32 = [(0x0FF0, 16), (0x1000, 16)] := by
  have h := claim_C1 envReady envReady_ready 1 0x0FF0 32
    (List.replicate 32 0x11) (by decide) (by decide) (by decide) (by decide)
  exact ⟨h.1, h.2, by decide⟩

/-- C10: every `IS25LP_WritePage` call issued by a validated `IS25LP_Write`
satisfies WritePage's own preconditions — chunk length in `[1, pageSize]`,
address in range, and `(address mod pageSize) + length ≤ pageSize` — so in a
failure-free environment none of WritePage's validation-rejection branches
fires and the whole write returns `IS25LP_OK`. -/
theorem claim_C10 (env : Env) (h : ReadyEnv env) (fuel A L : Nat)
    (buf : List Nat) (hf : fuel ≠ 0) (hL : 0 < L)
    (hrange : A + L ≤ IS25LP_CHIP_SIZE) (hbuf : L ≤ buf.length) :
    (IS25LP_Write env fuel A (some buf) L DState.init).1 = .ok ∧
    ∀ p ∈ pageProgs ((IS25LP_Write env fuel A (some buf) L DState.init).2.trace),
      1 ≤ p.2 ∧ p.2 ≤ IS25LP_PAGE_SIZE ∧ p.1 < IS25LP_CHIP_SIZE ∧
        p.1 % IS25LP_PAGE_SIZE + p.2 ≤ IS25LP_PAGE_SIZE := by
  have hL0 : ¬(L == 0) = true := by simp; omega
  have hw : ¬(A + L) % 4294967296 > IS25LP_CHIP_SIZE := by
    have : (A + L) % 4294967296 ≤ A + L := Nat.mod_le _ _
    omega
  obtain ⟨st', hrun, htr⟩ :=
    writeLoop_ready env h fuel hf L A buf L DState.init (le_refl L) hrange hbuf
  constructor
  · unfold IS25LP_Write
    simp only [Option.isNone_some, Option.getD_some, Bool.false_or, hL0, Bool.false_eq_true, if_false, hw]
    rw [hrun]
  · intro p hp
    unfold IS25LP_Write at hp
    simp only [Option.isNone_some, Option.getD_some, Bool.false_or, hL0, Bool.false_eq_true, if_false, hw] at hp
    rw [hrun] at hp
    simp only [htr, DState.init] at hp
    rw [List.nil_append] at hp
    rw [pageProgs_writeTraceEvs L A buf L hrange hbuf] at hp
    exact specChunksAux_mem L A L p hrange hp

set_option maxRecDepth 10000 in

theorem claim_C10_witness :
    (IS25LP_Write envReady 1 100 (some (List.replicate 300 7)) 300
      DState.init).1 = .ok ∧
    (1 ≤ 156 ∧ 156 ≤ IS25LP_PAGE_SIZE ∧ 100 < IS25LP_CHIP_SIZE ∧
      100 % IS25LP_PAGE_SIZE + 156 ≤ IS25LP_PAGE_SIZE) := by
  have h := claim_C10 envReady envReady_ready 1 100 300 (List.replicate 300 7)
    (by decide) (by decide) (by decide) (by decide)
  exact ⟨h.1, h.2 (100, 156) (by decide)⟩

/-- C5: on a fresh (not-initialized) handle, `IS25LP_Init` succeeds iff the
JEDEC-ID exchange succeeds and the first response byte after the dummy
region equals 0x9D and the third equals 0x13; on success the handle's
initialized flag is set, and on any other combination the call returns
`IS25LP_ERROR` and leaves the handle marked not-initialized. -/
theorem claim_C5 (env : Env) (handle : sIS25LP_Handle_t) (st : DState)
    (hinit : handle.initialized = false) :
    ((IS25LP_Init env handle st).1 = .ok ↔
      (env.spiOk st.spiIdx = true ∧
       env.spiRx st.spiIdx 1 % 256 = IS25LP_MANUFACTURER_ID ∧
       env.spiRx st.spiIdx 3 % 256 = IS25LP_DEVICE_ID)) ∧
    ((IS25LP_Init env handle st).1 = .ok →
      (IS25LP_Init env handle st).2.1.initialized = true) ∧
    ((IS25LP_Init env handle st).1 = .error →
      (IS25LP_Init env handle st).2.1.initialized = false) := by
  have hr4 : List.range 4 = [0, 1, 2, 3] := rfl
  by_cases hok : env.spiOk st.spiIdx = true
  · by_cases hm : env.spiRx st.spiIdx 1 % 256 = IS25LP_MANUFACTURER_ID
    · by_cases hc : env.spiRx st.spiIdx 3 % 256 = IS25LP_DEVICE_ID
      · simp [IS25LP_Init, IS25LP_ReadJedecID, SPI_CS_Low, SPI_CS_High,
          HAL_SPI_TransmitReceive, HAL_Delay, emit, hok, hr4, hm, hc, hinit]
      · have hc' : IS25LP_DEVICE_ID ≠ env.spiRx st.spiIdx 3 % 256 :=
          fun hh => hc hh.symm
        simp [IS25LP_Init, IS25LP_ReadJedecID, SPI_CS_Low, SPI_CS_High,
          HAL_SPI_TransmitReceive, HAL_Delay, emit, hok, hr4, hm, hc, hc', hinit]
    · have hm' : IS25LP_MANUFACTURER_ID ≠ env.spiRx st.spiIdx 1 % 256 :=
        fun hh => hm hh.symm
      simp [IS25LP_Init, IS25LP_ReadJedecID, SPI_CS_Low, SPI_CS_High,
        HAL_SPI_TransmitReceive, HAL_Delay, emit, hok, hr4, hm, hm', hinit]
  · simp [IS25LP_Init, IS25LP_ReadJedecID, SPI_CS_Low, SPI_CS_High,
      HAL_SPI_TransmitReceive, HAL_Delay, emit, hok, hr4, hinit]

theorem claim_C5_witness :
    (IS25LP_Init envJedec ⟨false⟩ DState.init).1 = .ok ∧
    (IS25LP_Init envJedec ⟨false⟩ DState.init).2.1.initialized = true := by
  have h := claim_C5 envJedec ⟨false⟩ DState.init rfl
  have hok := h.1.mpr ⟨rfl, by decide, by decide⟩
  exact ⟨hok, h.2.1 hok⟩

lemma shr16 (a : Nat) : a >>> 16 = a / 65536 := by
  rw [Nat.shiftRight_eq_div_pow]

lemma shr8 (a : Nat) : a >>> 8 = a / 256 := by
  rw [Nat.shiftRight_eq_div_pow]

lemma readCmd_be24 (a : Nat) : CMD_READ_DATA :: be24 a = readCmd a := by
  simp only [readCmd, be24, shr16, shr8, and255]

lemma fastReadCmd_be24 (a : Nat) :
    CMD_FAST_READ :: (be24 a ++ [DUMMY_BYTE]) = fastReadCmd a := by
  simp only [fastReadCmd, be24, List.cons_append, List.nil_append,
    shr16, shr8, and255]

lemma pageCmd_be24 (a : Nat) : CMD_PAGE_PROGRAM :: be24 a = pageCmd a := by
  simp only [pageCmd, be24, shr16, shr8, and255]

lemma eraseCmd_be24 (op a : Nat) : op :: be24 a = eraseCmd op a := by
  simp only [eraseCmd, be24, shr16, shr8, and255]

/-- C7: every address-bearing command frame the driver transmits — read,
fast read, page program, and the three erases — is the opcode followed by
the 24-bit address in big-endian byte order (high, mid, low), with no dummy
byte for program/erase and exactly one trailing dummy byte for fast read
(the model is byte-level, hence endianness-independent by construction). -/
theorem claim_C7 (env : Env) (h : ReadyEnv env) (fuel a l : Nat)
    (buf : List Nat) (st : DState) (hf : fuel ≠ 0) :
    (l ≠ 0 → (a + l) % 4294967296 ≤ IS25LP_CHIP_SIZE →
      ∃ st', IS25LP_Read env fuel a false l st = (.ok, st') ∧
        Event.spiTx (CMD_READ_DATA :: be24 a) ∈ st'.trace) ∧
    (l ≠ 0 → (a + l) % 4294967296 ≤ IS25LP_CHIP_SIZE →
      ∃ st', IS25LP_FastRead env fuel a false l st = (.ok, st') ∧
        Event.spiTx (CMD_FAST_READ :: (be24 a ++ [DUMMY_BYTE])) ∈ st'.trace) ∧
    (l ≠ 0 → l ≤ IS25LP_PAGE_SIZE → a < IS25LP_CHIP_SIZE →
      a % IS25LP_PAGE_SIZE + l ≤ IS25LP_PAGE_SIZE →
      ∃ st', IS25LP_WritePage env fuel a (some buf) l st = (.ok, st') ∧
        Event.spiTx (CMD_PAGE_PROGRAM :: be24 a) ∈ st'.trace) ∧
    (a < IS25LP_CHIP_SIZE →
      ∃ st', IS25LP_EraseSector env fuel a st = (.ok, st') ∧
        Event.spiTx (CMD_SECTOR_ERASE ::
          be24 (a / IS25LP_SECTOR_SIZE * IS25LP_SECTOR_SIZE)) ∈ st'.trace) ∧
    (a < IS25LP_CHIP_SIZE →
      ∃ st', IS25LP_EraseBlock32K env fuel a st = (.ok, st') ∧
        Event.spiTx (CMD_BLOCK_ERASE_32K ::
          be24 (a / IS25LP_BLOCK_32K_SIZE * IS25LP_BLOCK_32K_SIZE)) ∈ st'.trace) ∧
    (a < IS25LP_CHIP_SIZE →
      ∃ st', IS25LP_EraseBlock64K env fuel a st = (.ok, st') ∧
        Event.spiTx (CMD_BLOCK_ERASE_64K ::
          be24 (a / IS25LP_BLOCK_64K_SIZE * IS25LP_BLOCK_64K_SIZE)) ∈ st'.trace) := by
  refine ⟨?_, ?_, ?_, ?_, ?_, ?_⟩
  · intro hl hr
    rw [read_ready env h fuel a l st hf hl hr]
    exact ⟨_, rfl, by rw [readCmd_be24]; simp [readEvs, statusEvs]⟩
  · intro hl hr
    rw [fastRead_ready env h fuel a l st hf hl hr]
    exact ⟨_, rfl, by rw [fastReadCmd_be24]; simp [fastReadEvs, statusEvs]⟩
  · intro hl hlp ha hpo
    rw [writePage_ready env h fuel a l buf st hf hl hlp ha hpo]
    exact ⟨_, rfl, by rw [pageCmd_be24]; simp [writePageEvs, statusEvs, weEvs]⟩
  · intro ha
    rw [eraseSector_ready env h fuel a st hf ha]
    exact ⟨_, rfl, by rw [eraseCmd_be24]; simp [eraseEvs, statusEvs, weEvs]⟩
  · intro ha
    rw [eraseBlock32K_ready env h fuel a st hf ha]
    exact ⟨_, rfl, by rw [eraseCmd_be24]; simp [eraseEvs, statusEvs, weEvs]⟩
  · intro ha
    rw [eraseBlock64K_ready env h fuel a st hf ha]
    exact ⟨_, rfl, by rw [eraseCmd_be24]; simp [eraseEvs, statusEvs, weEvs]⟩

theorem claim_C7_witness :
    (∃ st', IS25LP_Read envReady 1 0x012345 false 16 DState.init = (.ok, st') ∧
      Event.spiTx [0x03, 0x01, 0x23, 0x45] ∈ st'.trace) ∧
    (∃ st', IS25LP_FastRead envReady 1 0x012345 false 16 DState.init =
        (.ok, st') ∧
      Event.spiTx [0x0B, 0x01, 0x23, 0x45, 0xFF] ∈ st'.trace) := by
  have h := claim_C7 envReady envReady_ready 1 0x012345 16 [] DState.init
    (by decide)
  obtain ⟨st1, h1, hm1⟩ := h.1 (by decide) (by decide)
  obtain ⟨st2, h2, hm2⟩ := h.2.1 (by decide) (by decide)
  have e1 : CMD_READ_DATA :: be24 0x012345 = [0x03, 0x01, 0x23, 0x45] := by decide
  have e2 : CMD_FAST_READ :: (be24 0x012345 ++ [DUMMY_BYTE]) =
      [0x0B, 0x01, 0x23, 0x45, 0xFF] := by decide
  rw [e1] at hm1
  rw [e2] at hm2
  exact ⟨⟨st1, h1, hm1⟩, ⟨st2, h2, hm2⟩⟩

/-- C8 counterexample: after a successful `IS25LP_Init` against a device
answering the expected identity (0x9D/0x60/0x13), a later
`IS25LP_GetDeviceInfo` against a device now answering all zeros returns
manufacturer 0 — not the identity observed at initialization — and its
trace contains a JEDEC-ID transaction: the driver caches nothing and
re-reads the identity, refuting "returns the identity cached in the handle,
re-reading only the unique id". -/
theorem claim_C8_counterexample :
    (IS25LP_Init envJedec ⟨false⟩ DState.init).2.1.initialized = true ∧
    (IS25LP_GetDeviceInfo envReady (IS25LP_Init envJedec ⟨false⟩ DState.init).2.1
        DState.init).1 =
      some ⟨0, 0, 0, [0, 0, 0, 0, 0, 0, 0, 0]⟩ ∧
    Event.spiTxRx [CMD_READ_JEDEC_ID, DUMMY_BYTE, DUMMY_BYTE, DUMMY_BYTE] ∈
      (IS25LP_GetDeviceInfo envReady (IS25LP_Init envJedec ⟨false⟩ DState.init).2.1
        DState.init).2.trace := by
  decide

/-- C8 (amended): `IS25LP_GetDeviceInfo` returns `IS25LP_ERROR` when the
handle is not initialized; on an initialized handle it re-reads both the
JEDEC identity triple and the unique id from the device at call time and
returns those freshly read values — no identity is cached in the handle. -/
theorem claim_C8 (env : Env) (handle : sIS25LP_Handle_t) (st : DState)
    (hok : ∀ i, env.spiOk i = true) :
    (handle.initialized = false → IS25LP_GetDeviceInfo env handle st = (none, st)) ∧
    (handle.initialized = true →
      ∃ st', IS25LP_GetDeviceInfo env handle st =
        (some ⟨env.spiRx st.spiIdx 1 % 256, env.spiRx st.spiIdx 2 % 256,
               env.spiRx st.spiIdx 3 % 256,
               (((List.range 13).map
                  (fun j => env.spiRx (st.spiIdx + 1) j % 256)).drop 5).take 8⟩,
         st') ∧
        Event.spiTxRx [CMD_READ_JEDEC_ID, DUMMY_BYTE, DUMMY_BYTE, DUMMY_BYTE] ∈
          st'.trace ∧
        Event.spiTxRx (CMD_READ_UNIQUE_ID :: List.replicate 12 DUMMY_BYTE) ∈
          st'.trace) := by
  constructor
  · intro hinit
    simp [IS25LP_GetDeviceInfo, hinit]
  · intro hinit
    have hr4 : List.range 4 = [0, 1, 2, 3] := rfl
    have h1 := hok st.spiIdx
    have h2 := hok (st.spiIdx + 1)
    have heq : IS25LP_GetDeviceInfo env handle st =
        (some ⟨env.spiRx st.spiIdx 1 % 256, env.spiRx st.spiIdx 2 % 256,
               env.spiRx st.spiIdx 3 % 256,
               (((List.range 13).map
                  (fun j => env.spiRx (st.spiIdx + 1) j % 256)).drop 5).take 8⟩,
         { st with spiIdx := st.spiIdx + 2,
                   trace := st.trace ++ (jedecEvs ++ uniqueEvs),
                   cs_high := true }) := by
      simp [IS25LP_GetDeviceInfo, IS25LP_ReadJedecID, IS25LP_ReadUniqueID,
        SPI_CS_Low, SPI_CS_High, HAL_SPI_TransmitReceive, emit, hinit, hr4,
        h1, h2, jedecEvs, uniqueEvs]
    refine ⟨_, heq, ?_, ?_⟩
    · simp [jedecEvs, uniqueEvs]
    · simp [jedecEvs, uniqueEvs]

theorem claim_C8_witness :
    IS25LP_GetDeviceInfo envReady ⟨false⟩ DState.init = (none, DState.init) ∧
    ∃ st', IS25LP_GetDeviceInfo envReady ⟨true⟩ DState.init =
      (some ⟨0, 0, 0, [0, 0, 0, 0, 0, 0, 0, 0]⟩, st') ∧
      Event.spiTxRx [CMD_READ_JEDEC_ID, DUMMY_BYTE, DUMMY_BYTE, DUMMY_BYTE] ∈
        st'.trace ∧
      Event.spiTxRx (CMD_READ_UNIQUE_ID :: List.replicate 12 DUMMY_BYTE) ∈
        st'.trace := by
  constructor
  · exact (claim_C8 envReady ⟨false⟩ DState.init (fun i => rfl)).1 rfl
  · obtain ⟨st', heq, hm1, hm2⟩ :=
      (claim_C8 envReady ⟨true⟩ DState.init (fun i => rfl)).2 rfl
    refine ⟨st', ?_, hm1, hm2⟩
    rw [heq]
    have : (⟨envReady.spiRx DState.init.spiIdx 1 % 256,
            envReady.spiRx DState.init.spiIdx 2 % 256,
            envReady.spiRx DState.init.spiIdx 3 % 256,
            (((List.range 13).map
               (fun j => envReady.spiRx (DState.init.spiIdx + 1) j % 256)).drop 5).take 8⟩ :
        sIS25LP_DeviceInfo_t) = ⟨0, 0, 0, [0, 0, 0, 0, 0, 0, 0, 0]⟩ := by decide
    rw [this]
